import Mathlib

/-!
# DocQuery-AI — shallow embedding of the RAG engine

This file embeds the state and operations of `RAGEngine`
(`src/rag_engine.py`, with the local-backend variant `src/src/rag_engine.py`
behaving identically up to message strings and the 200- vs 300-character
dedup key) and proves the frozen specification claims about it.

External collaborators (PDF text extraction, the embedding service / FAISS
build, the retriever, and the LLM chain) are modelled as explicit service
oracles returning `Except`: a Python exception raised by a collaborator is
an `Except.error`, and the engine's `try/except` blocks become pattern
matches on those results.  Python's `hash` of a string used as dedup key is
modelled by the string itself (an injective hash), and a Python `set` of
those hashes by a list of strings with membership tests.
-/

namespace DocQuery

/-- Python string slicing `s[:n]` (by code points).  Written over the
character list so that concrete instances evaluate by kernel reduction;
`strTake_eq_take` below shows it agrees with `String.take`. -/
def strTake (s : String) (n : Nat) : String :=
  ⟨s.data.take n⟩

/-- A LangChain document: page content plus the metadata fields the engine
reads (`metadata["source"]`, `metadata["page"]`). -/
structure Doc where
  page_content : String
  source : Option String
  page : Option Nat
deriving DecidableEq, Repr

/-- A citation dict as built in `RAGEngine.ask_question`
(`{"content": ..., "source": ..., "page": ...}`). -/
structure Citation where
  content : String
  source : String
  page : Option Nat
deriving DecidableEq, Repr

/-- The mutable state of a `RAGEngine` instance: `self.vector_store`
(the FAISS index, modelled by the list of chunks it stores; `none` when no
index has been built), `self.processed_files` and `self.chat_history`. -/
structure RAGEngine where
  vector_store : Option (List Doc)
  processed_files : List String
  chat_history : List (String × String)
deriving DecidableEq, Repr

/-- The fresh state set up by `RAGEngine.__init__`. -/
def initEngine : RAGEngine :=
  { vector_store := none, processed_files := [], chat_history := [] }

/-- Service oracles used by `process_pdfs`: `load` is
`PyPDFLoader(...).load()` on a file's raw bytes (it may raise), `split` is
the deterministic `RecursiveCharacterTextSplitter.split_documents`, and
`embed` is the embedding call inside `FAISS.from_documents` (it may raise). -/
structure PdfServices where
  load : String → Except String (List Doc)
  split : List Doc → List Doc
  embed : List Doc → Except String Unit

/-- Service oracles used by `ask_question`: `retrieve` is
`retriever.invoke(question)` against the stored chunks, and `generate` is
`chain.invoke({context, chat_history, question})`; both may raise. -/
structure AskServices where
  retrieve : List Doc → String → Except String (List Doc)
  generate : String → String → String → Except String String

/-- `doc.metadata["source"] = filename` applied to each loaded document. -/
def setSource (filename : String) (d : Doc) : Doc :=
  { d with source := some filename }

/-- The per-file loop of `process_pdfs`: load each file in order, tag its
documents with the file name, extend `all_documents`, and append the file
name to `processed_files`.  Returns the accumulated documents (or the first
extraction error, which aborts the loop) together with the list of file
names appended to `self.processed_files` up to that point. -/
def loadLoop (svc : PdfServices) :
    List (String × String) → Except String (List Doc) × List String
  | [] => (Except.ok [], [])
  | (filename, content) :: rest =>
    match svc.load content with
    | Except.error e => (Except.error e, [])
    | Except.ok documents =>
      match loadLoop svc rest with
      | (Except.error e, names) => (Except.error e, filename :: names)
      | (Except.ok docs, names) =>
        (Except.ok (documents.map (setSource filename) ++ docs), filename :: names)

/-- `RAGEngine.process_pdfs`: run the load loop, fail with the fixed message
if no documents were extracted, otherwise split into chunks and build the
vector store; any raised exception is caught and turned into a
`(False, "❌ Error processing PDFs: ...")` return.  Returns the post-call
engine state together with the `(success, message)` pair. -/
def process_pdfs (svc : PdfServices) (s : RAGEngine)
    (pdf_files : List (String × String)) : RAGEngine × Bool × String :=
  match loadLoop svc pdf_files with
  | (Except.error e, names) =>
    ({ s with processed_files := s.processed_files ++ names }, false,
      "❌ Error processing PDFs: " ++ e)
  | (Except.ok all_documents, names) =>
    if all_documents.isEmpty then
      ({ s with processed_files := s.processed_files ++ names }, false,
        "No content could be extracted from the PDFs.")
    else
      match svc.embed (svc.split all_documents) with
      | Except.error e =>
        ({ s with processed_files := s.processed_files ++ names }, false,
          "❌ Error processing PDFs: " ++ e)
      | Except.ok _ =>
        ({ vector_store := some (svc.split all_documents),
           processed_files := s.processed_files ++ names,
           chat_history := [] }, true,
          "✅ Successfully processed " ++ toString pdf_files.length ++
            " PDF(s) with " ++ toString (svc.split all_documents).length ++
            " text chunks.")

/-- `RAGEngine._format_docs`: join page contents with blank lines. -/
def format_docs (docs : List Doc) : String :=
  String.intercalate "\n\n" (docs.map (·.page_content))

/-- `RAGEngine._format_chat_history`: the fixed placeholder on empty
history, else `Human:`/`Assistant:` lines for the last five exchanges
(`self.chat_history[-5:]`), joined by newlines. -/
def format_chat_history (hist : List (String × String)) : String :=
  if hist.isEmpty then "No previous conversation."
  else
    String.intercalate "\n"
      ((hist.drop (hist.length - 5)).flatMap fun p =>
        ["Human: " ++ p.1, "Assistant: " ++ p.2])

/-- The citation dict built for a retrieved doc in `ask_question`:
content is `doc.page_content[:300]`, with `"..."` appended when the
original content was longer than 300 characters; source and page metadata
default to `"Unknown"` / `N/A` (modelled as `none`). -/
def mkCitation (d : Doc) : Citation :=
  let content := strTake d.page_content 300
  { content := if 300 < d.page_content.length then content ++ "..." else content,
    source := d.source.getD "Unknown",
    page := d.page }

/-- The source-deduplication loop of `ask_question`: walk the retrieved
docs in order, keyed by `doc.page_content[:300]`; a doc whose key was
already seen is skipped, otherwise its key is added to the seen set and its
citation appended. -/
def dedupeSources : List Doc → List String → List Citation
  | [], _ => []
  | d :: rest, seen =>
    let content := strTake d.page_content 300
    if content ∈ seen then dedupeSources rest seen
    else mkCitation d :: dedupeSources rest (content :: seen)

/-- `RAGEngine.ask_question`: placeholder answer when no vector store;
otherwise retrieve, assemble the prompt inputs, generate, append the turn
to history and dedupe the sources.  Any exception raised by retrieval or
generation is caught and returned as `("Error generating response: ...", [])`
with the state unchanged.  Returns the post-call state with the
`(answer, sources)` pair. -/
def ask_question (svc : AskServices) (s : RAGEngine) (question : String) :
    RAGEngine × String × List Citation :=
  match s.vector_store with
  | none => (s, "Please upload PDF documents first before asking questions.", [])
  | some store =>
    match svc.retrieve store question with
    | Except.error e => (s, "Error generating response: " ++ e, [])
    | Except.ok docs =>
      match svc.generate (format_docs docs) (format_chat_history s.chat_history)
          question with
      | Except.error e => (s, "Error generating response: " ++ e, [])
      | Except.ok answer =>
        ({ s with chat_history := s.chat_history ++ [(question, answer)] },
          answer, dedupeSources docs [])

/-- `RAGEngine.clear_memory`: clear the conversation history. -/
def clear_memory (s : RAGEngine) : RAGEngine :=
  { s with chat_history := [] }

/-- `RAGEngine.reset`: clear documents, index and memory. -/
def reset (_s : RAGEngine) : RAGEngine :=
  { vector_store := none, processed_files := [], chat_history := [] }

/-- `render_message` in `app.py` shows at most three sources
(`sources[:3]`). -/
def renderSources (sources : List Citation) : List Citation :=
  sources.take 3

/-- The dedup-key length used by `ask_question` (`page_content[:300]`). -/
def dedupN : Nat := 300

/-- The dedup key of a retrieved doc: its leading `dedupN` characters. -/
def dupKey (d : Doc) : String :=
  strTake d.page_content dedupN

/-- Specification-level deduplication, following the spec's words: the
first-seen chunk in retrieval order wins and every later chunk with the
same key is dropped. -/
def firstOcc (key : Doc → String) : List Doc → List Doc
  | [] => []
  | d :: rest => d :: (firstOcc key rest).filter fun x => key x != key d

/-- A PDF service in which every file extracts to a single one-page document
whose text is the file's raw content; splitting is the identity and the
embedding call succeeds. -/
def oneDocSvc : PdfServices :=
  { load := fun c => Except.ok [{ page_content := c, source := none, page := none }],
    split := fun ds => ds,
    embed := fun _ => Except.ok () }

/-- A PDF service in which every file extracts to zero documents. -/
def emptySvc : PdfServices :=
  { load := fun _ => Except.ok [],
    split := fun ds => ds,
    embed := fun _ => Except.ok () }

def docA : Doc := { page_content := "A", source := some "a.pdf", page := none }

def docB : Doc := { page_content := "B", source := some "b.pdf", page := none }

/-- An engine state after a successful prior ingest of `a.pdf`, holding a
conversation turn about it. -/
def engineA : RAGEngine :=
  { vector_store := some [docA], processed_files := ["a.pdf"],
    chat_history := [("q0", "a0")] }

/-- An ask service whose retrieval call raises. -/
def failRetrieveSvc : AskServices :=
  { retrieve := fun _ _ => Except.error "boom",
    generate := fun _ _ _ => Except.ok "ans" }

/-- An ask service whose generation call raises. -/
def failGenerateSvc : AskServices :=
  { retrieve := fun store _ => Except.ok store,
    generate := fun _ _ _ => Except.error "quota" }

/-- An ask service in which retrieval returns the stored docs and
generation answers `"ans"`. -/
def okAskSvc : AskServices :=
  { retrieve := fun store _ => Except.ok store,
    generate := fun _ _ _ => Except.ok "ans" }

def hist7 : List (String × String) :=
  [("q1", "a1"), ("q2", "a2"), ("q3", "a3"), ("q4", "a4"), ("q5", "a5"),
    ("q6", "a6"), ("q7", "a7")]

theorem strTake_eq_take (s : String) (n : Nat) : strTake s n = s.take n :=
  (String.take_eq s n).symm

theorem dedupeSources_eq_filter (docs : List Doc) :
    ∀ seen : List String,
      dedupeSources docs seen =
        ((firstOcc dupKey docs).filter fun d => decide (dupKey d ∉ seen)).map mkCitation := by
  induction docs with
  | nil => intro seen; simp [dedupeSources, firstOcc]
  | cons d rest ih =>
    intro seen
    have hkey : strTake d.page_content 300 = dupKey d := rfl
    by_cases h : dupKey d ∈ seen
    · rw [show dedupeSources (d :: rest) seen = dedupeSources rest seen by
        simp [dedupeSources, hkey, h]]
      rw [ih seen]
      simp only [firstOcc, List.filter_cons]
      rw [show (decide (dupKey d ∉ seen)) = false by simp [h]]
      simp only [Bool.false_eq_true, if_false, List.filter_filter]
      congr 1
      apply List.filter_congr
      intro x _
      by_cases hx : dupKey x ∈ seen
      · simp [hx]
      · have hne : dupKey x ≠ dupKey d := fun he => hx (he ▸ h)
        simp [hx, hne]
    · rw [show dedupeSources (d :: rest) seen =
          mkCitation d :: dedupeSources rest (strTake d.page_content 300 :: seen) by
        simp [dedupeSources, hkey, h]]
      rw [hkey, ih (dupKey d :: seen)]
      simp only [firstOcc, List.filter_cons]
      rw [show (decide (dupKey d ∉ seen)) = true by simp [h]]
      simp only [if_true, List.map_cons, List.filter_filter]
      congr 2
      apply List.filter_congr
      intro x _
      by_cases h1 : dupKey x = dupKey d
      · simp [h1]
      · by_cases h2 : dupKey x ∈ seen <;> simp [h1, h2]

theorem dedupeSources_eq_firstOcc (docs : List Doc) :
    dedupeSources docs [] = (firstOcc dupKey docs).map mkCitation := by
  rw [dedupeSources_eq_filter]
  simp

theorem firstOcc_sublist (key : Doc → String) (docs : List Doc) :
    (firstOcc key docs).Sublist docs := by
  induction docs with
  | nil => simp [firstOcc]
  | cons d rest ih =>
    exact List.Sublist.cons₂ d (((firstOcc key rest).filter_sublist).trans ih)

theorem loadLoop_ok_names (svc : PdfServices) (files : List (String × String))
    (docs : List Doc) (names : List String)
    (h : loadLoop svc files = (Except.ok docs, names)) :
    names = files.map Prod.fst := by
  induction files generalizing docs names with
  | nil =>
    simp only [loadLoop, Prod.mk.injEq] at h
    simp [h.2.symm]
  | cons f rest ih =>
    obtain ⟨filename, content⟩ := f
    simp only [loadLoop] at h
    cases hl : svc.load content with
    | error e => rw [hl] at h; simp at h
    | ok documents =>
      rw [hl] at h
      rcases hr : loadLoop svc rest with ⟨r, names0⟩
      rw [hr] at h
      cases r with
      | error e => simp at h
      | ok docs0 =>
        simp only [Prod.mk.injEq] at h
        rw [← h.2, List.map_cons]
        exact congrArg (filename :: ·) (ih docs0 names0 hr)

theorem process_pdfs_success_clears_history (svc : PdfServices) (s : RAGEngine)
    (files : List (String × String))
    (h : (process_pdfs svc s files).2.1 = true) :
    (process_pdfs svc s files).1.chat_history = [] := by
  rcases hl : loadLoop svc files with ⟨r, names⟩
  cases r with
  | error e => simp [process_pdfs, hl] at h
  | ok docs =>
    by_cases hd : docs.isEmpty
    · simp [process_pdfs, hl, hd] at h
    · cases he : svc.embed (svc.split docs) with
      | error e => simp [process_pdfs, hl, hd, he] at h
      | ok u => simp [process_pdfs, hl, hd, he]

theorem c1_counterexample :
    (process_pdfs oneDocSvc engineA [("b.pdf", "B")]).2.1 = true ∧
    engineA.vector_store = some [docA] ∧
    (process_pdfs oneDocSvc engineA [("b.pdf", "B")]).1.vector_store = some [docB] ∧
    docA ∉ [docB] := by
  refine ⟨rfl, rfl, ?_, by decide⟩
  rfl

theorem process_pdfs_cumulative_names_fresh_index (svc : PdfServices)
    (s : RAGEngine) (files : List (String × String))
    (h : (process_pdfs svc s files).2.1 = true) :
    (process_pdfs svc s files).1.processed_files =
        s.processed_files ++ files.map Prod.fst ∧
    (process_pdfs svc s files).1.vector_store =
        (process_pdfs svc initEngine files).1.vector_store := by
  rcases hl : loadLoop svc files with ⟨r, names⟩
  cases r with
  | error e => simp [process_pdfs, hl] at h
  | ok docs =>
    by_cases hd : docs.isEmpty
    · simp [process_pdfs, hl, hd] at h
    · cases he : svc.embed (svc.split docs) with
      | error e => simp [process_pdfs, hl, hd, he] at h
      | ok u =>
        have hn : names = files.map Prod.fst := loadLoop_ok_names svc files docs names hl
        simp [process_pdfs, hl, hd, he, hn]

theorem c1_witness :
    (process_pdfs oneDocSvc engineA [("b.pdf", "B")]).1.processed_files =
        engineA.processed_files ++ [("b.pdf", "B")].map Prod.fst ∧
    (process_pdfs oneDocSvc engineA [("b.pdf", "B")]).1.vector_store =
        (process_pdfs oneDocSvc initEngine [("b.pdf", "B")]).1.vector_store :=
  process_pdfs_cumulative_names_fresh_index oneDocSvc engineA [("b.pdf", "B")] rfl

theorem c2_counterexample :
    (process_pdfs emptySvc initEngine [("empty.pdf", "x")]).2.1 = false ∧
    (process_pdfs emptySvc initEngine [("empty.pdf", "x")]).2.2 =
        "No content could be extracted from the PDFs." ∧
    initEngine.processed_files = [] ∧
    (process_pdfs emptySvc initEngine [("empty.pdf", "x")]).1.processed_files =
        ["empty.pdf"] := by
  refine ⟨rfl, rfl, rfl, rfl⟩

theorem process_pdfs_failure_frame (svc : PdfServices) (s : RAGEngine)
    (files : List (String × String))
    (h : (process_pdfs svc s files).2.1 = false) :
    (process_pdfs svc s files).1.vector_store = s.vector_store ∧
    (process_pdfs svc s files).1.chat_history = s.chat_history ∧
    (∃ names : List String,
      (process_pdfs svc s files).1.processed_files = s.processed_files ++ names) ∧
    (process_pdfs svc s files).2.2 ≠ "" := by
  rcases hl : loadLoop svc files with ⟨r, names⟩
  cases r with
  | error e =>
    refine ⟨?_, ?_, ⟨names, ?_⟩, ?_⟩ <;> simp [process_pdfs, hl, String.ext_iff]
  | ok docs =>
    by_cases hd : docs.isEmpty
    · refine ⟨?_, ?_, ⟨names, ?_⟩, ?_⟩ <;> simp [process_pdfs, hl, hd, String.ext_iff]
    · cases he : svc.embed (svc.split docs) with
      | error e =>
        refine ⟨?_, ?_, ⟨names, ?_⟩, ?_⟩ <;>
          simp [process_pdfs, hl, hd, he, String.ext_iff]
      | ok u => simp [process_pdfs, hl, hd, he] at h

theorem c2_witness :
    (process_pdfs emptySvc initEngine [("empty.pdf", "x")]).1.vector_store =
        initEngine.vector_store ∧
    (process_pdfs emptySvc initEngine [("empty.pdf", "x")]).1.chat_history =
        initEngine.chat_history ∧
    (∃ names : List String,
      (process_pdfs emptySvc initEngine [("empty.pdf", "x")]).1.processed_files =
        initEngine.processed_files ++ names) ∧
    (process_pdfs emptySvc initEngine [("empty.pdf", "x")]).2.2 ≠ "" :=
  process_pdfs_failure_frame emptySvc initEngine [("empty.pdf", "x")] rfl

theorem c9_witness :
    (process_pdfs oneDocSvc engineA [("b.pdf", "B")]).1.chat_history = [] :=
  process_pdfs_success_clears_history oneDocSvc engineA [("b.pdf", "B")] rfl

theorem ask_question_empty_state (svc : AskServices) (s : RAGEngine) (q : String)
    (h : s.vector_store = none) :
    ask_question svc s q =
      (s, "Please upload PDF documents first before asking questions.", []) := by
  simp [ask_question, h]

theorem c3_witness :
    ask_question okAskSvc initEngine "what is this?" =
      (initEngine, "Please upload PDF documents first before asking questions.", []) :=
  ask_question_empty_state okAskSvc initEngine "what is this?" rfl

theorem ask_question_error_answer (svc : AskServices) (s : RAGEngine) (q : String)
    (store : List Doc) (h : s.vector_store = some store) :
    (∀ e, svc.retrieve store q = Except.error e →
      (ask_question svc s q).2 = ("Error generating response: " ++ e, [])) ∧
    (∀ docs e, svc.retrieve store q = Except.ok docs →
      svc.generate (format_docs docs) (format_chat_history s.chat_history) q =
        Except.error e →
      (ask_question svc s q).2 = ("Error generating response: " ++ e, [])) := by
  constructor
  · intro e he
    simp [ask_question, h, he]
  · intro docs e hr hg
    simp [ask_question, h, hr, hg]

theorem c4_witness :
    (ask_question failRetrieveSvc engineA "q").2 =
      ("Error generating response: " ++ "boom", []) :=
  (ask_question_error_answer failRetrieveSvc engineA "q" [docA] rfl).1 "boom" rfl

theorem ask_question_history_atomic (svc : AskServices) (s : RAGEngine)
    (q : String) (store : List Doc) (h : s.vector_store = some store) :
    (∀ e, svc.retrieve store q = Except.error e → (ask_question svc s q).1 = s) ∧
    (∀ docs e, svc.retrieve store q = Except.ok docs →
      svc.generate (format_docs docs) (format_chat_history s.chat_history) q =
        Except.error e →
      (ask_question svc s q).1 = s) ∧
    (∀ docs ans, svc.retrieve store q = Except.ok docs →
      svc.generate (format_docs docs) (format_chat_history s.chat_history) q =
        Except.ok ans →
      (ask_question svc s q).1.chat_history = s.chat_history ++ [(q, ans)]) := by
  refine ⟨?_, ?_, ?_⟩
  · intro e he
    simp [ask_question, h, he]
  · intro docs e hr hg
    simp [ask_question, h, hr, hg]
  · intro docs ans hr hg
    simp [ask_question, h, hr, hg]

theorem c10_witness :
    (ask_question failGenerateSvc engineA "q").1 = engineA :=
  (ask_question_history_atomic failGenerateSvc engineA "q" [docA] rfl).2.1
    [docA] "quota" rfl rfl

theorem displayed_sources_order_bound (docs : List Doc) :
    renderSources (dedupeSources docs []) =
        ((firstOcc dupKey docs).map mkCitation).take 3 ∧
    (renderSources (dedupeSources docs [])).length ≤ 3 ∧
    (dedupeSources docs []).Sublist (docs.map mkCitation) := by
  refine ⟨?_, ?_, ?_⟩
  · rw [renderSources, dedupeSources_eq_firstOcc]
  · simp only [renderSources, List.length_take]
    exact min_le_left 3 _
  · rw [dedupeSources_eq_firstOcc]
    exact (firstOcc_sublist dupKey docs).map mkCitation

theorem dedupe_leading_key (docs : List Doc) :
    dedupeSources docs [] = (firstOcc dupKey docs).map mkCitation ∧
    (∀ d : Doc, dupKey d = strTake d.page_content dedupN) ∧
    200 ≤ dedupN ∧ dedupN ≤ 300 ∧
    (∀ d1 d2 : Doc, dedupeSources [d1, d2] [] =
      if dupKey d1 = dupKey d2 then [mkCitation d1]
      else [mkCitation d1, mkCitation d2]) := by
  refine ⟨dedupeSources_eq_firstOcc docs, fun d => rfl, by norm_num [dedupN],
    by norm_num [dedupN], ?_⟩
  intro d1 d2
  have hk1 : strTake d1.page_content 300 = dupKey d1 := rfl
  have hk2 : strTake d2.page_content 300 = dupKey d2 := rfl
  by_cases h : dupKey d1 = dupKey d2
  · simp [dedupeSources, hk1, hk2, h]
  · simp [dedupeSources, hk1, hk2, h, Ne.symm h]

theorem clear_memory_frame (s : RAGEngine) :
    (clear_memory s).chat_history = [] ∧
    (clear_memory s).vector_store = s.vector_store ∧
    (clear_memory s).processed_files = s.processed_files :=
  ⟨rfl, rfl, rfl⟩

theorem format_chat_history_last_turns (hist : List (String × String))
    (h : hist ≠ []) :
    format_chat_history hist =
      String.intercalate "\n"
        (((hist.reverse.take 5).reverse).flatMap fun p =>
          ["Human: " ++ p.1, "Assistant: " ++ p.2]) ∧
    ((hist.reverse.take 5).reverse).length = min 5 hist.length := by
  constructor
  · rw [format_chat_history, if_neg (by simpa using h)]
    have hdt : hist.drop (hist.length - 5) = (hist.reverse.take 5).reverse := by
      rw [show hist.drop (hist.length - 5) = hist.rtake 5 from rfl]
      exact List.rtake_eq_reverse_take_reverse hist 5
    rw [hdt]
  · rw [List.length_reverse, List.length_take, List.length_reverse]

theorem c7_witness :
    format_chat_history hist7 =
      String.intercalate "\n"
        (((hist7.reverse.take 5).reverse).flatMap fun p =>
          ["Human: " ++ p.1, "Assistant: " ++ p.2]) ∧
    ((hist7.reverse.take 5).reverse).length = min 5 hist7.length :=
  format_chat_history_last_turns hist7 (by decide)

end DocQuery
